import Mathlib

/-!
Shallow embedding of the Coinone auto-buy script (src/coinone.py) and
verification of the claims made about it by the specification.

Modelling conventions:
- Python byte strings are `List Nat` with every element below 256.
- Python dicts (JSON objects, payloads) are association lists
  `List (String × Json)` with Python dict semantics: lookup finds the first
  matching key, assignment replaces in place or appends at the end.
- `json.dumps` with its default separators and `ensure_ascii=True` is
  embedded as `dumpJson`.
- Non-determinism (uuid4 nonces) and the environment are passed explicitly
  as parameters.
- HTTP traffic is modelled by explicit request values and by response
  oracles passed as parameters; exceptions are modelled with `Option` or
  `Except`.
-/

namespace Coinone

/-- Embedding of the JSON values this program manipulates.  Numeric JSON
values are embedded as integers; the program never constructs fractional
JSON literals on the paths the claims are about (binary floating point is
outside the embedding). -/
inductive Json where
  | null : Json
  | b : Bool → Json
  | i : Int → Json
  | s : String → Json
  | arr : List Json → Json
  | obj : List (String × Json) → Json

/-- Payloads are Python dicts with string keys, in insertion order. -/
abbrev Payload := List (String × Json)

/-- Python dict lookup `d[key]`: first entry with the key (keys are unique
in a real dict); `none` models the `KeyError`. -/
def dictGet : Payload → String → Option Json
  | [], _ => none
  | (k, v) :: rest, key => if k = key then some v else dictGet rest key

/-- Python dict assignment `d[key] = val`: replaces the value in place when
the key is present, appends at the end otherwise. -/
def dictSet : Payload → String → Json → Payload
  | [], key, val => [(key, val)]
  | (k, v) :: rest, key, val =>
    if k = key then (k, val) :: rest else (k, v) :: dictSet rest key val

/-- Lowercase hexadecimal digit characters, index 0..15. -/
def hexDigitChar (n : Nat) : Char :=
  "0123456789abcdef".toList.getD n 'x'

/-- Four lowercase hex digits, as in a JSON \uXXXX escape. -/
def hex4 (n : Nat) : String :=
  String.mk [hexDigitChar (n / 4096 % 16), hexDigitChar (n / 256 % 16),
    hexDigitChar (n / 16 % 16), hexDigitChar (n % 16)]

/-- Escaping of one character inside a JSON string literal, following
CPython json.dumps with its default ensure_ascii=True: the short escapes
for quote, backslash and the common control characters, \uXXXX for the
other control characters and for everything outside printable ASCII,
surrogate pairs above the BMP. -/
def jsonEscapeChar (c : Char) : String :=
  if c = Char.ofNat 34 then "\\\""
  else if c = Char.ofNat 92 then "\\\\"
  else if c = Char.ofNat 10 then "\\n"
  else if c = Char.ofNat 13 then "\\r"
  else if c = Char.ofNat 9 then "\\t"
  else if c = Char.ofNat 8 then "\\b"
  else if c = Char.ofNat 12 then "\\f"
  else if c.toNat < 32 ∨ c.toNat > 126 then
    if c.toNat < 65536 then "\\u" ++ hex4 c.toNat
    else "\\u" ++ hex4 (55296 + (c.toNat - 65536) / 1024)
      ++ "\\u" ++ hex4 (56320 + (c.toNat - 65536) % 1024)
  else String.singleton c

/-- JSON string literal, double-quoted and escaped. -/
def dumpStringLit (s : String) : String :=
  "\"" ++ String.join (s.toList.map jsonEscapeChar) ++ "\""

mutual

/-- Embedding of `json.dumps` with the default separators (", " between
items, ": " between a key and its value), iterating containers in
insertion order exactly as CPython does. -/
def dumpJson : Json → String
  | .null => "null"
  | .b true => "true"
  | .b false => "false"
  | .i n => toString n
  | .s str => dumpStringLit str
  | .arr l => "[" ++ dumpArr l ++ "]"
  | .obj l => "\x7b" ++ dumpObj l ++ "\x7d"

/-- Comma-separated serialization of a JSON array body. -/
def dumpArr : List Json → String
  | [] => ""
  | [x] => dumpJson x
  | x :: y :: rest => dumpJson x ++ ", " ++ dumpArr (y :: rest)

/-- Comma-separated serialization of a JSON object body. -/
def dumpObj : List (String × Json) → String
  | [] => ""
  | [(k, v)] => dumpStringLit k ++ ": " ++ dumpJson v
  | (k, v) :: y :: rest => dumpStringLit k ++ ": " ++ dumpJson v ++ ", " ++ dumpObj (y :: rest)

end

/-- UTF-8 encoding of one character, as `bytes(s, "utf-8")` produces. -/
def utf8Char (c : Char) : List Nat :=
  let v := c.toNat
  if v < 128 then [v]
  else if v < 2048 then [192 + v / 64, 128 + v % 64]
  else if v < 65536 then [224 + v / 4096, 128 + v / 64 % 64, 128 + v % 64]
  else [240 + v / 262144, 128 + v / 4096 % 64, 128 + v / 64 % 64, 128 + v % 64]

/-- UTF-8 encoding of a string: `bytes(s, "utf-8")`. -/
def utf8 (s : String) : List Nat := s.toList.flatMap utf8Char

/-- The base64 alphabet, index 0..63. -/
def b64Char (n : Nat) : Char :=
  "ABCDEFGHIJKLMNOPQRSTUVWXYZabcdefghijklmnopqrstuvwxyz0123456789+/".toList.getD n 'A'

/-- Embedding of `base64.b64encode` on a byte string, producing the ASCII
text of the encoding (with = padding). -/
def b64Encode : List Nat → String
  | [] => ""
  | [a] =>
    let n := a * 65536
    String.mk [b64Char (n / 262144 % 64), b64Char (n / 4096 % 64)] ++ "=="
  | [a, b] =>
    let n := a * 65536 + b * 256
    String.mk [b64Char (n / 262144 % 64), b64Char (n / 4096 % 64), b64Char (n / 64 % 64)] ++ "="
  | a :: b :: c :: rest =>
    let n := a * 65536 + b * 256 + c
    String.mk [b64Char (n / 262144 % 64), b64Char (n / 4096 % 64), b64Char (n / 64 % 64),
      b64Char (n % 64)] ++ b64Encode rest

/-! SHA-512 (FIPS 180-4) and HMAC (RFC 2104), the embedding of what
`hashlib.sha512` and `hmac.new(key, msg, hashlib.sha512)` compute.
64-bit machine words are naturals reduced modulo 2^64. -/

/-- 2^64, the modulus of 64-bit machine arithmetic. -/
def w64 : Nat := 18446744073709551616

/-- Right rotation of a 64-bit word. -/
def rotr64 (x n : Nat) : Nat := ((x >>> n) ||| (x <<< (64 - n))) % w64

/-- SHA-512 round constants K, in order. -/
def shaK : List Nat := [
  4794697086780616226, 8158064640168781261, 13096744586834688815, 16840607885511220156,
  4131703408338449720, 6480981068601479193, 10538285296894168987, 12329834152419229976,
  15566598209576043074, 1334009975649890238, 2608012711638119052, 6128411473006802146,
  8268148722764581231, 9286055187155687089, 11230858885718282805, 13951009754708518548,
  16472876342353939154, 17275323862435702243, 1135362057144423861, 2597628984639134821,
  3308224258029322869, 5365058923640841347, 6679025012923562964, 8573033837759648693,
  10970295158949994411, 12119686244451234320, 12683024718118986047, 13788192230050041572,
  14330467153632333762, 15395433587784984357, 489312712824947311, 1452737877330783856,
  2861767655752347644, 3322285676063803686, 5560940570517711597, 5996557281743188959,
  7280758554555802590, 8532644243296465576, 9350256976987008742, 10552545826968843579,
  11727347734174303076, 12113106623233404929, 14000437183269869457, 14369950271660146224,
  15101387698204529176, 15463397548674623760, 17586052441742319658, 1182934255886127544,
  1847814050463011016, 2177327727835720531, 2830643537854262169, 3796741975233480872,
  4115178125766777443, 5681478168544905931, 6601373596472566643, 7507060721942968483,
  8399075790359081724, 8693463985226723168, 9568029438360202098, 10144078919501101548,
  10430055236837252648, 11840083180663258601, 13761210420658862357, 14299343276471374635,
  14566680578165727644, 15097957966210449927, 16922976911328602910, 17689382322260857208,
  500013540394364858, 748580250866718886, 1242879168328830382, 1977374033974150939,
  2944078676154940804, 3659926193048069267, 4368137639120453308, 4836135668995329356,
  5532061633213252278, 6448918945643986474, 6902733635092675308, 7801388544844847127]

/-- SHA-512 initial hash value H0. -/
def shaH0 : List Nat := [
  7640891576956012808, 13503953896175478587, 4354685564936845355, 11912009170470909681,
  5840696475078001361, 11170449401992604703, 2270897969802886507, 6620516959819538809]

/-- Big sigma 0: rotations by 28, 34, 39. -/
def bigS0 (x : Nat) : Nat := rotr64 x 28 ^^^ rotr64 x 34 ^^^ rotr64 x 39

/-- Big sigma 1: rotations by 14, 18, 41. -/
def bigS1 (x : Nat) : Nat := rotr64 x 14 ^^^ rotr64 x 18 ^^^ rotr64 x 41

/-- Small sigma 0: rotations by 1, 8 and shift by 7. -/
def smallS0 (x : Nat) : Nat := rotr64 x 1 ^^^ rotr64 x 8 ^^^ (x >>> 7)

/-- Small sigma 1: rotations by 19, 61 and shift by 6. -/
def smallS1 (x : Nat) : Nat := rotr64 x 19 ^^^ rotr64 x 61 ^^^ (x >>> 6)

/-- Choice function Ch(e,f,g); the complement is taken within 64 bits. -/
def chF (e f g : Nat) : Nat := (e &&& f) ^^^ ((e ^^^ (w64 - 1)) &&& g)

/-- Majority function Maj(a,b,c). -/
def majF (a b c : Nat) : Nat := (a &&& b) ^^^ (a &&& c) ^^^ (b &&& c)

/-- Working state of the SHA-512 compression function. -/
structure ShaState where
  a : Nat
  b : Nat
  c : Nat
  d : Nat
  e : Nat
  f : Nat
  g : Nat
  h : Nat

/-- Message-schedule extension, on the reversed schedule (most recent word
first): each new word is s1(w[t-2]) + w[t-7] + s0(w[t-15]) + w[t-16]. -/
def extendSchedule : List Nat → Nat → List Nat
  | rev, 0 => rev
  | rev, k+1 =>
    extendSchedule
      ((smallS1 (rev.getD 1 0) + rev.getD 6 0 + smallS0 (rev.getD 14 0) + rev.getD 15 0) % w64
        :: rev) k

/-- The 80-word message schedule from the 16 words of one block. -/
def schedule (ws : List Nat) : List Nat := (extendSchedule ws.reverse 64).reverse

/-- One SHA-512 compression round; the pair carries (K constant, schedule word). -/
def shaRound (st : ShaState) (kw : Nat × Nat) : ShaState :=
  let t1 := (st.h + bigS1 st.e + chF st.e st.f st.g + kw.1 + kw.2) % w64
  let t2 := (bigS0 st.a + majF st.a st.b st.c) % w64
  { a := (t1 + t2) % w64, b := st.a, c := st.b, d := st.c,
    e := (st.d + t1) % w64, f := st.e, g := st.f, h := st.g }

/-- Big-endian word from a list of bytes. -/
def bytesToWord (l : List Nat) : Nat := l.foldl (fun acc byte => acc * 256 + byte) 0

/-- The 16 big-endian 64-bit words of one 128-byte block. -/
def blockWords (blk : List Nat) : List Nat := (List.toChunks 8 blk).map bytesToWord

/-- Compression of one 128-byte block into the running hash value. -/
def processBlock (H : List Nat) (blk : List Nat) : List Nat :=
  let ws := schedule (blockWords blk)
  let init : ShaState :=
    ⟨H.getD 0 0, H.getD 1 0, H.getD 2 0, H.getD 3 0,
     H.getD 4 0, H.getD 5 0, H.getD 6 0, H.getD 7 0⟩
  let fin := (List.zip shaK ws).foldl shaRound init
  [(H.getD 0 0 + fin.a) % w64, (H.getD 1 0 + fin.b) % w64,
   (H.getD 2 0 + fin.c) % w64, (H.getD 3 0 + fin.d) % w64,
   (H.getD 4 0 + fin.e) % w64, (H.getD 5 0 + fin.f) % w64,
   (H.getD 6 0 + fin.g) % w64, (H.getD 7 0 + fin.h) % w64]

/-- The 16-byte big-endian encoding of the bit length, for padding. -/
def lenBytes16 (n : Nat) : List Nat :=
  (List.range 16).map (fun i => (n >>> (8 * (15 - i))) % 256)

/-- SHA-512 padding: a 0x80 byte, zeros to 112 mod 128, then the 128-bit
big-endian message bit length. -/
def shaPad (msg : List Nat) : List Nat :=
  msg ++ 128 :: (List.replicate ((239 - msg.length % 128) % 128) 0 ++ lenBytes16 (8 * msg.length))

/-- SHA-512 digest (64 bytes) of a byte string: `hashlib.sha512(msg).digest()`. -/
def sha512 (msg : List Nat) : List Nat :=
  let H := (List.toChunks 128 (shaPad msg)).foldl processBlock shaH0
  H.flatMap (fun wrd => (List.range 8).map (fun i => (wrd >>> (8 * (7 - i))) % 256))

/-- Lowercase hex rendering of a byte string: the `.hexdigest()` method. -/
def hexDigest (bytes : List Nat) : String :=
  String.mk (bytes.flatMap (fun byte => [hexDigitChar (byte / 16 % 16), hexDigitChar (byte % 16)]))

/-- HMAC with SHA-512 and its 128-byte block size:
`hmac.new(key, msg, hashlib.sha512).digest()`. -/
def hmacSha512 (key msg : List Nat) : List Nat :=
  let k0 := if 128 < key.length then sha512 key else key
  let kp := k0 ++ List.replicate (128 - k0.length) 0
  sha512 ((kp.map (fun byte => byte ^^^ 92)) ++ sha512 ((kp.map (fun byte => byte ^^^ 54)) ++ msg))

example : dumpJson (.obj [("a", .i 1), ("nonce", .s "n")]) = "\x7b\"a\": 1, \"nonce\": \"n\"\x7d" := by
  decide

example : b64Encode (utf8 "\x7b\"a\": 1, \"nonce\": \"n\"\x7d") = "eyJhIjogMSwgIm5vbmNlIjogIm4ifQ==" := by
  decide

example : b64Encode (utf8 "a") = "YQ==" := by decide

example : b64Encode (utf8 "ab") = "YWI=" := by decide

example : b64Encode (utf8 "abc") = "YWJj" := by decide

example :
    dumpJson (.obj [("s", .s "h\x7f\n\"\\€𝄞")])
      = "\x7b\"s\": \"h\\u007f\\n\\\"\\\\\\u20ac\\ud834\\udd1e\"\x7d" := by
  decide

/-! The signer and HTTP request construction of src/coinone.py.  The uuid4
nonce is non-deterministic at run time, so it is passed explicitly; the
secret key (module global SECRET_KEY, a byte string) likewise. -/

/-- The mutation `payload["nonce"] = str(uuid.uuid4())` performed at the
start of get_encoded_payload, with the generated nonce made explicit. -/
def inject_nonce (nonce : String) (payload : Payload) : Payload :=
  dictSet payload "nonce" (.s nonce)

/-- Embedding of get_encoded_payload: injects the nonce, serializes the
payload with json.dumps, UTF-8-encodes it and base64-encodes the bytes. -/
def get_encoded_payload (nonce : String) (payload : Payload) : String :=
  b64Encode (utf8 (dumpJson (.obj (inject_nonce nonce payload))))

/-- Embedding of get_signature: HMAC-SHA512 of the encoded payload bytes
under SECRET_KEY, rendered with hexdigest(). -/
def get_signature (secret : List Nat) (encoded_payload : String) : String :=
  hexDigest (hmacSha512 secret (utf8 encoded_payload))

/-- One HTTP request as handed to httplib2: URL, method, header list. -/
structure HttpRequest where
  url : String
  method : String
  headers : List (String × String)

/-- Embedding of the request built by get_response: fixed base host plus
action path, and the header dict with the content type and the two signing
headers — built unconditionally, before the method is ever consulted. -/
def get_response_request (secret : List Nat) (nonce : String) (action : String)
    (payload : Payload) (method : String) : HttpRequest :=
  let encoded_payload := get_encoded_payload nonce payload
  { url := "https://api.coinone.co.kr" ++ action,
    method := method,
    headers := [("Content-type", "application/json"),
                ("X-COINONE-PAYLOAD", encoded_payload),
                ("X-COINONE-SIGNATURE", get_signature secret encoded_payload)] }

/-- The ticker action path f-string of get_current_price. -/
def ticker_action (hold target : String) : String :=
  "/public/v2/ticker_new/" ++ hold ++ "/" ++ target

/-- The request issued by get_current_price: the ticker action with an
empty payload and method "GET", through get_response. -/
def get_current_price_request (secret : List Nat) (nonce : String)
    (hold target : String) : HttpRequest :=
  get_response_request secret nonce (ticker_action hold target) [] "GET"

/-- Json field access `j[k]`, defined for objects; `none` models KeyError. -/
def jGet (j : Json) (k : String) : Option Json :=
  match j with
  | .obj l => dictGet l k
  | _ => none

/-- Json list indexing `j[i]`, defined for arrays; `none` models IndexError. -/
def jIdx (j : Json) (i : Nat) : Option Json :=
  match j with
  | .arr l => l.get? i
  | _ => none

/-- Embedding of the extraction get_current_price performs on the ticker
response: price["tickers"][0]["best_asks"][0]["price"]. -/
def extract_current_price (resp : Json) : Option Json :=
  (jGet resp "tickers").bind (fun tickers =>
    (jIdx tickers 0).bind (fun t0 =>
      (jGet t0 "best_asks").bind (fun asks =>
        (jIdx asks 0).bind (fun a0 => jGet a0 "price"))))

/-! Helper lemmas about dict operations and hex digests. -/

theorem dictGet_dictSet_self (p : Payload) (k : String) (v : Json) :
    dictGet (dictSet p k v) k = some v := by
  induction p with
  | nil => simp [dictSet, dictGet]
  | cons hd tl ih =>
    obtain ⟨k0, v0⟩ := hd
    by_cases h : k0 = k <;> simp [dictSet, dictGet, h, ih]

theorem dictGet_dictSet_other (p : Payload) (k k2 : String) (v : Json) (h : k2 ≠ k) :
    dictGet (dictSet p k v) k2 = dictGet p k2 := by
  induction p with
  | nil =>
    simp only [dictSet, dictGet]
    rw [if_neg (fun hh : k = k2 => h hh.symm)]
  | cons hd tl ih =>
    obtain ⟨k0, v0⟩ := hd
    simp only [dictSet]
    by_cases h0 : k0 = k
    · rw [if_pos h0]
      have hne : ¬ k0 = k2 := fun hh => h (hh ▸ h0)
      simp only [dictGet]
      rw [if_neg hne, if_neg hne]
    · rw [if_neg h0]
      simp only [dictGet]
      by_cases h2 : k0 = k2
      · rw [if_pos h2, if_pos h2]
      · rw [if_neg h2, if_neg h2]
        exact ih

theorem dictSet_keys (p : Payload) (k : String) (v : Json) :
    (dictSet p k v).map Prod.fst
      = (if k ∈ p.map Prod.fst then p.map Prod.fst
         else p.map Prod.fst ++ [k]) := by
  induction p with
  | nil => simp [dictSet]
  | cons hd tl ih =>
    obtain ⟨k0, v0⟩ := hd
    by_cases h : k0 = k
    · subst h
      simp [dictSet]
    · simp only [dictSet, if_neg h, List.map_cons, List.mem_cons]
      rw [ih]
      by_cases hc : k ∈ tl.map Prod.fst
      · rw [if_pos hc, if_pos (Or.inr hc)]
      · rw [if_neg hc, if_neg ?hno]
        case hno =>
          rintro (hh | hh)
          · exact h hh.symm
          · exact hc hh
        simp

theorem hexDigitChar_mem_of_lt (n : Nat) (h : n < 16) :
    hexDigitChar n ∈ "0123456789abcdef".toList := by
  interval_cases n <;> decide

theorem hexDigest_lower (bytes : List Nat) :
    ∀ c ∈ (hexDigest bytes).toList, c ∈ "0123456789abcdef".toList := by
  intro c hc
  have hc2 : c ∈ bytes.flatMap
      (fun byte => [hexDigitChar (byte / 16 % 16), hexDigitChar (byte % 16)]) := hc
  rw [List.mem_flatMap] at hc2
  obtain ⟨byte, _, hmem⟩ := hc2
  simp only [List.mem_cons, List.not_mem_nil, or_false] at hmem
  rcases hmem with h | h <;> subst h <;>
    exact hexDigitChar_mem_of_lt _ (Nat.mod_lt _ (by norm_num))

/-! The claims. -/

/-- C1: for every payload mapping and secret key, the signing pipeline
injects a nonce into the payload, serializes the payload with json.dumps,
base64-encodes the UTF-8 bytes, and computes the HMAC-SHA512 of those
base64-encoded bytes under the secret key, returned as the lowercase hex
digest; with the nonce and secret fixed, the signature is a deterministic
function of the payload. -/
theorem C1_signing_pipeline (secret : List Nat) (payload p2 : Payload) (nonce : String)
    (hpq : payload = p2) :
    get_signature secret (get_encoded_payload nonce payload)
        = hexDigest (hmacSha512 secret
            (utf8 (b64Encode (utf8 (dumpJson (Json.obj (dictSet payload "nonce" (Json.s nonce))))))))
      ∧ (∀ c ∈ (get_signature secret (get_encoded_payload nonce payload)).toList,
          c ∈ "0123456789abcdef".toList)
      ∧ get_signature secret (get_encoded_payload nonce p2)
          = get_signature secret (get_encoded_payload nonce payload) := by
  subst hpq
  exact ⟨rfl, hexDigest_lower _, rfl⟩

/-- Witness for C1 at a concrete payload, secret and nonce. -/
theorem C1_signing_pipeline_witness :
    get_signature (utf8 "key") (get_encoded_payload "n" [("a", Json.i 1)])
        = hexDigest (hmacSha512 (utf8 "key")
            (utf8 (b64Encode (utf8 (dumpJson (Json.obj (dictSet [("a", Json.i 1)] "nonce" (Json.s "n"))))))))
      ∧ (∀ c ∈ (get_signature (utf8 "key") (get_encoded_payload "n" [("a", Json.i 1)])).toList,
          c ∈ "0123456789abcdef".toList)
      ∧ get_signature (utf8 "key") (get_encoded_payload "n" [("a", Json.i 1)])
          = get_signature (utf8 "key") (get_encoded_payload "n" [("a", Json.i 1)]) :=
  C1_signing_pipeline (utf8 "key") [("a", Json.i 1)] [("a", Json.i 1)] "n" rfl

/-- C2 counterexample: the GET request issued by get_current_price does
carry the signing headers — get_response builds the same header dict for
every method, so the claim that a GET request carries no such headers is
false on the code. -/
theorem C2_get_request_carries_signing_headers :
    (get_current_price_request (utf8 "key") "n" "KRW" "BTC").method = "GET"
      ∧ (get_current_price_request (utf8 "key") "n" "KRW" "BTC").headers.map Prod.fst
          = ["Content-type", "X-COINONE-PAYLOAD", "X-COINONE-SIGNATURE"] :=
  ⟨rfl, rfl⟩

/-- C2 amended: every request built by get_response — whatever its method,
GET included — carries exactly the three headers Content-type,
X-COINONE-PAYLOAD and X-COINONE-SIGNATURE built by the signer. -/
theorem C2_all_requests_carry_signing_headers (secret : List Nat) (nonce : String)
    (action : String) (payload : Payload) (method : String) :
    (get_response_request secret nonce action payload method).headers.map Prod.fst
        = ["Content-type", "X-COINONE-PAYLOAD", "X-COINONE-SIGNATURE"]
      ∧ (get_response_request secret nonce action payload method).method = method :=
  ⟨rfl, rfl⟩

/-- C8: the price fetcher returns the price of index 0 of the best_asks
list — the first element, whatever the rest of the list holds; on a
response whose first ask (price 5) is not the minimum (price 3 follows),
it still returns 5. -/
theorem C8_price_from_index_zero (resp tickers t0 a0 : Json) (l : List Json)
    (h1 : jGet resp "tickers" = some tickers)
    (h2 : jIdx tickers 0 = some t0)
    (h3 : jGet t0 "best_asks" = some (Json.arr (a0 :: l))) :
    extract_current_price resp = jGet a0 "price"
      ∧ extract_current_price
          (Json.obj [("tickers", Json.arr
            [Json.obj [("best_asks", Json.arr
              [Json.obj [("price", Json.i 5)],
               Json.obj [("price", Json.i 3)]])]])])
          = some (Json.i 5) := by
  constructor
  · simp only [extract_current_price]
    rw [h1, Option.some_bind, h2, Option.some_bind, h3, Option.some_bind]
    simp [jIdx]
  · rfl

/-- Witness for C8 at a concrete ticker response. -/
theorem C8_price_from_index_zero_witness :
    extract_current_price
        (Json.obj [("tickers", Json.arr
          [Json.obj [("best_asks", Json.arr
            [Json.obj [("price", Json.i 5)],
             Json.obj [("price", Json.i 3)]])]])])
        = jGet (Json.obj [("price", Json.i 5)]) "price"
      ∧ extract_current_price
          (Json.obj [("tickers", Json.arr
            [Json.obj [("best_asks", Json.arr
              [Json.obj [("price", Json.i 5)],
               Json.obj [("price", Json.i 3)]])]])])
          = some (Json.i 5) :=
  C8_price_from_index_zero
    (Json.obj [("tickers", Json.arr
      [Json.obj [("best_asks", Json.arr
        [Json.obj [("price", Json.i 5)],
         Json.obj [("price", Json.i 3)]])]])])
    (Json.arr [Json.obj [("best_asks", Json.arr
      [Json.obj [("price", Json.i 5)],
       Json.obj [("price", Json.i 3)]])]])
    (Json.obj [("best_asks", Json.arr
      [Json.obj [("price", Json.i 5)],
       Json.obj [("price", Json.i 3)]])])
    (Json.obj [("price", Json.i 5)])
    [Json.obj [("price", Json.i 3)]]
    rfl rfl rfl

/-- C9: after the signer runs, the payload mapping holds the fresh nonce
under the key "nonce"; every other key keeps its original value, and the
key list is unchanged except for "nonce" being appended when absent — the
nonce insertion is the only mutation. -/
theorem C9_nonce_is_only_mutation (payload : Payload) (nonce : String) (k : String)
    (hk : k ≠ "nonce") :
    dictGet (inject_nonce nonce payload) "nonce" = some (Json.s nonce)
      ∧ dictGet (inject_nonce nonce payload) k = dictGet payload k
      ∧ (inject_nonce nonce payload).map Prod.fst
          = (if "nonce" ∈ payload.map Prod.fst then payload.map Prod.fst
             else payload.map Prod.fst ++ ["nonce"]) :=
  ⟨dictGet_dictSet_self payload "nonce" (Json.s nonce),
   dictGet_dictSet_other payload "nonce" k (Json.s nonce) hk,
   dictSet_keys payload "nonce" (Json.s nonce)⟩

/-- Witness for C9 at a concrete payload and key. -/
theorem C9_nonce_is_only_mutation_witness :
    dictGet (inject_nonce "n" [("a", Json.i 1)]) "nonce" = some (Json.s "n")
      ∧ dictGet (inject_nonce "n" [("a", Json.i 1)]) "a" = dictGet [("a", Json.i 1)] "a"
      ∧ (inject_nonce "n" [("a", Json.i 1)]).map Prod.fst
          = (if "nonce" ∈ ([("a", Json.i 1)] : Payload).map Prod.fst
             then ([("a", Json.i 1)] : Payload).map Prod.fst
             else ([("a", Json.i 1)] : Payload).map Prod.fst ++ ["nonce"]) :=
  C9_nonce_is_only_mutation [("a", Json.i 1)] "n" "a" (by decide)

set_option maxRecDepth 100000 in
example :
    hexDigest (sha512 (utf8 "abc"))
      = "ddaf35a193617abacc417349ae20413112e6fa4e89a97ea20a9eeee64b55d39a2192992a274fc1a836ba3c23a3feebbd454d4423643ce80e2a9ac94fa54ca49f" := by
  decide

set_option maxRecDepth 100000 in
example :
    get_signature (utf8 "key") (get_encoded_payload "n" [("a", Json.i 1)])
      = "94d000f82a0796b91a985ef8297725c40d810bf067e45d5bdcb97e6fa4a842bbb329529bdcb6147d5d72f0bee7906eddbcc810ff5c43e58216e8b8ba3c04546a" := by
  decide

/-! Configuration loading (module top level of src/coinone.py) and the
entry-point gate.  os.getenv is modelled as an explicit environment
function String → Option String. -/

/-- Python str.strip() whitespace, the full CPython set: 0x09-0x0D, the
information separators 0x1C-0x1F, space, NEL 0x85, NBSP 0xA0, Ogham space
0x1680, the Zs range U+2000-U+200A, the line and paragraph separators
U+2028/U+2029, U+202F, U+205F and ideographic space U+3000. -/
def pyIsSpace (c : Char) : Bool :=
  c.toNat == 32 || (9 ≤ c.toNat && c.toNat ≤ 13) || (28 ≤ c.toNat && c.toNat ≤ 31) ||
    c.toNat == 133 || c.toNat == 160 || c.toNat == 5760 ||
    (8192 ≤ c.toNat && c.toNat ≤ 8202) || c.toNat == 8232 || c.toNat == 8233 ||
    c.toNat == 8239 || c.toNat == 8287 || c.toNat == 12288

/-- Python str.strip(): drop leading and trailing whitespace. -/
def pyStrip (s : String) : String :=
  String.mk (((s.toList.dropWhile pyIsSpace).reverse.dropWhile pyIsSpace).reverse)

example : pyStrip (String.mk [Char.ofNat 160] ++ "true" ++ String.mk [Char.ofNat 8239])
    = "true" := by decide

example : pyStrip (String.mk [Char.ofNat 28] ++ " yes\t") = "yes" := by decide

/-- Python str.lower(), on the ASCII range (the comparisons in the source
are against ASCII literals). -/
def pyLower (s : String) : String := String.mk (s.toList.map Char.toLower)

/-- Embedding of the IS_ACTIVE parsing at lines 56-57:
os.getenv("IS_ACTIVE", "FALSE").strip().lower() in ["true", "1", "yes"]. -/
def parse_is_active (env : String → Option String) : Bool :=
  (["true", "1", "yes"] : List String).contains
    (pyLower (pyStrip ((env "IS_ACTIVE").getD "FALSE")))

/-- What the entry point does: run the order-placement path, or send one
notice message to the webhook and stop. -/
inductive MainAction where
  | placeOrder : MainAction
  | sendNotice : String → MainAction

/-- The fixed disabled-notice text sent when IS_ACTIVE is not truthy. -/
def disabled_notice_msg : String :=
  "⏸️ 자동 매수 기능이 현재 비활성화되어 있습니다.\n환경변수 IS_ACTIVE가 활성화(예: TRUE, 1, yes)로 설정되어 있지 않아 오늘의 자동 매수가 실행되지 않았습니다."

/-- Embedding of the __main__ block: the IS_ACTIVE gate selects between
place_buy_order and the single disabled notice. -/
def main_model (env : String → Option String) : MainAction :=
  if parse_is_active env then .placeOrder else .sendNotice disabled_notice_msg

/-- The configuration the module reads at import time. `secret_key` is the
UTF-8 byte string; in the source an unset API_SECRET_KEY_COINONE makes
bytes(None, "utf-8") raise at import, modelled here as `none`. -/
structure Config where
  access_token : Option String
  secret_key : Option (List Nat)
  discord_webhook_url : Option String
  amount : Option String
  currency_buy : String
  currency_hold : String
  is_active : Bool

/-- Embedding of the module-level configuration reads (lines 48-57). -/
def loadConfig (env : String → Option String) : Config :=
  { access_token := env "API_ACCESS_KEY_COINONE",
    secret_key := (env "API_SECRET_KEY_COINONE").map utf8,
    discord_webhook_url := env "DISCORD_WEBHOOK_URL",
    amount := env "AMOUNT",
    currency_buy := (env "CURRENCY_BUY").getD "BTC",
    currency_hold := (env "CURRENCY_HOLD").getD "KRW",
    is_active := parse_is_active env }

/-- Membership in the truthy list, as a propositional disjunction. -/
theorem contains_truthy_iff (x : String) :
    ((["true", "1", "yes"] : List String).contains x = true)
      ↔ (x = "true" ∨ x = "1" ∨ x = "yes") := by
  simp [List.contains, List.elem_iff]

/-- C3: if IS_ACTIVE, trimmed and lowercased, is "true", "1" or "yes",
the entry point takes the order-placement path; for every other value,
and when the variable is unset, it only sends the fixed disabled notice. -/
theorem C3_is_active_gate (env : String → Option String) :
    ((pyLower (pyStrip ((env "IS_ACTIVE").getD "FALSE")) = "true"
        ∨ pyLower (pyStrip ((env "IS_ACTIVE").getD "FALSE")) = "1"
        ∨ pyLower (pyStrip ((env "IS_ACTIVE").getD "FALSE")) = "yes")
      → main_model env = .placeOrder)
    ∧ (¬(pyLower (pyStrip ((env "IS_ACTIVE").getD "FALSE")) = "true"
        ∨ pyLower (pyStrip ((env "IS_ACTIVE").getD "FALSE")) = "1"
        ∨ pyLower (pyStrip ((env "IS_ACTIVE").getD "FALSE")) = "yes")
      → main_model env = .sendNotice disabled_notice_msg)
    ∧ (env "IS_ACTIVE" = none → main_model env = .sendNotice disabled_notice_msg) := by
  refine ⟨?_, ?_, ?_⟩
  · intro h
    have hx : parse_is_active env = true := by
      rw [parse_is_active, contains_truthy_iff]
      exact h
    simp [main_model, hx]
  · intro h
    have hx : parse_is_active env = false := by
      rw [parse_is_active]
      rcases hb : (["true", "1", "yes"] : List String).contains
          (pyLower (pyStrip ((env "IS_ACTIVE").getD "FALSE"))) with _ | _
      · rfl
      · exact absurd (contains_truthy_iff _ |>.mp hb) h
    simp [main_model, hx]
  · intro h
    have hx : parse_is_active env = false := by
      rw [parse_is_active, h]
      decide
    simp [main_model, hx]

/-- Witness for C3: a truthy environment (" TRUE " with surrounding
whitespace) takes the order path; the empty environment sends the notice. -/
theorem C3_is_active_gate_witness :
    main_model (fun k => if k = "IS_ACTIVE" then some " TRUE " else none) = .placeOrder
      ∧ main_model (fun _ => none) = .sendNotice disabled_notice_msg :=
  ⟨(C3_is_active_gate (fun k => if k = "IS_ACTIVE" then some " TRUE " else none)).1
      (Or.inl (by decide)),
   (C3_is_active_gate (fun _ => none)).2.2 rfl⟩

/-- C4 counterexample: the claimed variable names API_ACCESS_KEY and
WEBHOOK_URL are not the ones consulted — setting them leaves the
configuration empty, while the names actually read are
API_ACCESS_KEY_COINONE and DISCORD_WEBHOOK_URL. -/
theorem C4_env_names_counterexample :
    (loadConfig (fun k => if k = "API_ACCESS_KEY" then some "x" else none)).access_token = none
      ∧ (loadConfig (fun k => if k = "WEBHOOK_URL" then some "u" else none)).discord_webhook_url
          = none
      ∧ (loadConfig (fun k => if k = "API_ACCESS_KEY_COINONE" then some "x" else none)).access_token
          = some "x"
      ∧ (loadConfig (fun k => if k = "DISCORD_WEBHOOK_URL" then some "u" else none)).discord_webhook_url
          = some "u" := by
  refine ⟨?_, ?_, ?_, ?_⟩ <;> decide

/-- C4 amended: the configuration is read at startup from the environment
variables API_ACCESS_KEY_COINONE, API_SECRET_KEY_COINONE,
DISCORD_WEBHOOK_URL, AMOUNT, CURRENCY_BUY (default BTC), CURRENCY_HOLD
(default KRW) and IS_ACTIVE — the configuration depends on no other
variable, and the currency defaults apply when their variables are unset. -/
theorem C4_config_env_names (env env2 : String → Option String)
    (h : ∀ k ∈ ["API_ACCESS_KEY_COINONE", "API_SECRET_KEY_COINONE", "DISCORD_WEBHOOK_URL",
        "AMOUNT", "CURRENCY_BUY", "CURRENCY_HOLD", "IS_ACTIVE"], env k = env2 k)
    (hb : env "CURRENCY_BUY" = none) (hh : env "CURRENCY_HOLD" = none) :
    loadConfig env = loadConfig env2
      ∧ (loadConfig env).currency_buy = "BTC"
      ∧ (loadConfig env).currency_hold = "KRW" := by
  have h1 := h "API_ACCESS_KEY_COINONE" (by simp)
  have h2 := h "API_SECRET_KEY_COINONE" (by simp)
  have h3 := h "DISCORD_WEBHOOK_URL" (by simp)
  have h4 := h "AMOUNT" (by simp)
  have h5 := h "CURRENCY_BUY" (by simp)
  have h6 := h "CURRENCY_HOLD" (by simp)
  have h7 := h "IS_ACTIVE" (by simp)
  refine ⟨?_, ?_, ?_⟩
  · simp [loadConfig, parse_is_active, h1, h2, h3, h4, h5, h6, h7]
  · simp [loadConfig, hb]
  · simp [loadConfig, hh]

/-- Witness for C4 at the empty environment. -/
theorem C4_config_env_names_witness :
    loadConfig (fun _ => none) = loadConfig (fun _ => none)
      ∧ (loadConfig (fun _ => none)).currency_buy = "BTC"
      ∧ (loadConfig (fun _ => none)).currency_hold = "KRW" :=
  C4_config_env_names (fun _ => none) (fun _ => none) (fun _ _ => rfl) rfl rfl

/-- Outcome of send_discord_message once the webhook POST has returned:
either the transport raised (the except branch prints and re-raises,
modelled as `Except.error`) or the function returns normally with the
list of failure lines it printed. -/
def send_discord_message_result (resp : Except String (Nat × String)) :
    Except String (List String) :=
  match resp with
  | .error e => .error ("Exception occurred: " ++ e)
  | .ok (status, content) =>
    .ok (if status ≠ 204 then ["Failed to send message to Discord: " ++ content] else [])

/-- C7: a webhook response with a status other than 204 is logged and the
notifier returns normally — no exception — while a 204 logs nothing. -/
theorem C7_webhook_non_204_logged_not_raised (status : Nat) (content : String)
    (h : status ≠ 204) :
    send_discord_message_result (.ok (status, content))
        = .ok ["Failed to send message to Discord: " ++ content]
      ∧ send_discord_message_result (.ok (204, content)) = .ok [] := by
  constructor
  · simp [send_discord_message_result, h]
  · simp [send_discord_message_result]

/-- Witness for C7 at status 500. -/
theorem C7_webhook_non_204_logged_not_raised_witness :
    send_discord_message_result (.ok (500, "err"))
        = .ok ["Failed to send message to Discord: " ++ "err"]
      ∧ send_discord_message_result (.ok (204, "err")) = .ok [] :=
  C7_webhook_non_204_logged_not_raised 500 "err" (by decide)

/-! Python numerics, as used by the report formatters.  CPython parses
number strings into binary64 floats and renders them as the shortest
round-tripping decimal; this embedding keeps decimals exact
(mantissa × 10^-exp).  The two agree on every value whose decimal literal
is the shortest representation of its nearest double and whose magnitude
keeps repr out of scientific notation — which covers the quantities these
formatters handle; binary rounding itself is outside the embedding (see
the treatment of the limit-price claim). -/

/-- An exact decimal: num × 10^-exp. -/
structure PyDec where
  num : Int
  exp : Nat
deriving DecidableEq

/-- ASCII digit test. -/
def isDigitChar (c : Char) : Bool := 48 ≤ c.toNat && c.toNat ≤ 57

/-- Numeric value of a digit list. -/
def digitsVal (l : List Char) : Nat := l.foldl (fun a c => a * 10 + (c.toNat - 48)) 0

/-- Embedding of float(s) on plain decimal literals: optional sign, digits,
optional dot and fraction digits (exponent forms and inf/nan omitted; the
exchange sends plain decimals). -/
def parseDec (s : String) : Option PyDec :=
  let l := s.toList
  let sgnRest : Int × List Char :=
    match l with
    | c :: tl =>
      if c = Char.ofNat 45 then (-1, tl)
      else if c = Char.ofNat 43 then (1, tl) else (1, l)
    | [] => (1, l)
  let ip := sgnRest.2.takeWhile isDigitChar
  let rest2 := sgnRest.2.dropWhile isDigitChar
  match rest2 with
  | [] => if ip.isEmpty then none else some ⟨sgnRest.1 * digitsVal ip, 0⟩
  | c :: fp =>
    if c = Char.ofNat 46 ∧ fp.all isDigitChar = true ∧ ¬(ip = [] ∧ fp = []) then
      some ⟨sgnRest.1 * (digitsVal ip * 10 ^ fp.length + digitsVal fp), fp.length⟩
    else none

/-- Embedding of int(s) on integer literals: optional sign and digits. -/
def parseIntStr (s : String) : Option Int :=
  match s.toList with
  | [] => none
  | c :: tl =>
    let sgnDs : Int × List Char :=
      if c = Char.ofNat 45 then (-1, tl)
      else if c = Char.ofNat 43 then (1, tl) else (1, c :: tl)
    if sgnDs.2 ≠ [] ∧ sgnDs.2.all isDigitChar = true then
      some (sgnDs.1 * digitsVal sgnDs.2)
    else none

/-- Python float(x) on a JSON value: numbers pass through, strings are
parsed, booleans are 0/1; anything else raises (none). -/
def pyFloat (j : Json) : Option PyDec :=
  match j with
  | .i n => some ⟨n, 0⟩
  | .s str => parseDec str
  | .b bv => some ⟨if bv then 1 else 0, 0⟩
  | _ => none

/-- Python int(x) on a JSON value: integers pass through, strings must be
integer literals, booleans are 0/1; anything else raises (none). -/
def pyIntConv (j : Json) : Option Int :=
  match j with
  | .i n => some n
  | .s str => parseIntStr str
  | .b bv => some (if bv then 1 else 0)
  | _ => none

/-- Exact product of two decimals (the model of float multiplication). -/
def mulDec (a b : PyDec) : PyDec := ⟨a.num * b.num, a.exp + b.exp⟩

/-- Python int() truncation toward zero of a decimal. -/
def truncDec (a : PyDec) : Int := a.num.tdiv ((10 : Int) ^ a.exp)

/-- Normalization: strip trailing zero fraction digits. -/
def stripZeros : Int → Nat → PyDec
  | n, 0 => ⟨n, 0⟩
  | n, e+1 => if n % 10 = 0 then stripZeros (n / 10) e else ⟨n, e+1⟩

/-- Comma insertion after every third digit, on the reversed digit list. -/
def commaGroupRev : List Char → List Char
  | a :: b :: c :: d :: rest => a :: b :: c :: Char.ofNat 44 :: commaGroupRev (d :: rest)
  | l => l

/-- f"[n:,]" for a natural number: decimal digits with thousands commas. -/
def natCommas (n : Nat) : String :=
  String.mk ((commaGroupRev (Nat.toDigits 10 n).reverse).reverse)

/-- f"[n:,]" for an integer. -/
def intCommas (n : Int) : String :=
  if n < 0 then "-" ++ natCommas n.natAbs else natCommas n.natAbs

/-- Zero-padding of a digit list to a fixed width. -/
def padZeros (l : List Char) (e : Nat) : String :=
  String.mk (List.replicate (e - l.length) (Char.ofNat 48) ++ l)

/-- f"[x:,]" for a float: thousands commas in the integer part, the
normalized fraction after the dot, a trailing .0 when integral — the
comma format spec of the report f-strings. -/
def formatDecCommas (d : PyDec) : String :=
  let n := stripZeros d.num d.exp
  let sign := if n.num < 0 then "-" else ""
  let ipart := natCommas (n.num.natAbs / 10 ^ n.exp)
  let fstr :=
    if n.exp = 0 then "0" else padZeros (Nat.toDigits 10 (n.num.natAbs % 10 ^ n.exp)) n.exp
  sign ++ ipart ++ "." ++ fstr

example : (parseDec "1000.5").map formatDecCommas = some "1,000.5" := by decide

example : (parseDec "3").map formatDecCommas = some "3.0" := by decide

example : (parseDec "0.05").map formatDecCommas = some "0.05" := by decide

example : (parseDec "12345.670").map formatDecCommas = some "12,345.67" := by decide

example : intCommas 1234567 = "1,234,567" := by decide

example : intCommas (-1234) = "-1,234" := by decide

example :
    (parseDec "2.7").bind (fun a => (parseDec "3").map (fun b => truncDec (mulDec a b)))
      = some 8 := by decide

/-- The dyadic mantissa of an exactly representable decimal: with the
normalized value num/10^exp and 5^exp dividing num, the value equals
(num/5^exp) / 2^exp. -/
def dyadicMant (d : PyDec) : Int :=
  (stripZeros d.num d.exp).num / (5 : Int) ^ (stripZeros d.num d.exp).exp

/-- Sufficient conditions under which CPython float parsing and comma
formatting agree with the exact-decimal model: the normalized value is
nonzero (ruling out the -0.0 display case), exactly representable in
binary64 (5^exp divides the normalized mantissa and the dyadic mantissa
fits in 53 bits; the exponent range is far from binary64 limits at these
magnitudes), has at most 15 significant digits — so by the 15-digit
round-trip guarantee the shortest round-tripping repr is the exact
decimal itself — and is at least 10^-4 in magnitude, below which format
switches to scientific notation (the 15-digit bound already keeps the
value below the 10^16 upper switch). -/
def floatFaithful (d : PyDec) : Prop :=
  (stripZeros d.num d.exp).num ≠ 0
    ∧ (stripZeros d.num d.exp).num % (5 : Int) ^ (stripZeros d.num d.exp).exp = 0
    ∧ (dyadicMant d).natAbs < 2 ^ 53
    ∧ (stripZeros d.num d.exp).num.natAbs < 10 ^ 15
    ∧ 10 ^ (stripZeros d.num d.exp).exp ≤ (stripZeros d.num d.exp).num.natAbs * 10 ^ 4

instance (d : PyDec) : Decidable (floatFaithful d) := by
  unfold floatFaithful
  infer_instance

/-- Condition under which the binary64 product of two exactly
representable values is itself computed exactly — the product of the
dyadic mantissas still fits in 53 bits — so that the int() truncation of
the float product equals the exact truncation truncDec (mulDec a b). -/
def prodExact (a b : PyDec) : Prop :=
  (dyadicMant a * dyadicMant b).natAbs < 2 ^ 53

instance (a b : PyDec) : Decidable (prodExact a b) := by
  unfold prodExact
  infer_instance

example : floatFaithful ⟨50005, 1⟩ := by decide

example : ¬ floatFaithful ⟨29, 2⟩ := by decide

/-- The single-quote character, for Python repr of strings. -/
def sq : String := String.mk [Char.ofNat 39]

/-- Two lowercase hex digits, as in a \xHH repr escape. -/
def hex2 (n : Nat) : String := String.mk [hexDigitChar (n / 16 % 16), hexDigitChar (n % 16)]

/-- One character inside a CPython string repr with the chosen quote:
backslash and the quote are backslash-escaped, tab/newline/return use
their short escapes, the other C0 controls and DEL become \xHH; the
unchosen quote character stays literal. -/
def pyReprEscape (quote : Char) (c : Char) : String :=
  if c = Char.ofNat 92 then "\\\\"
  else if c = quote then "\\" ++ String.singleton quote
  else if c = Char.ofNat 9 then "\\t"
  else if c = Char.ofNat 10 then "\\n"
  else if c = Char.ofNat 13 then "\\r"
  else if c.toNat < 32 ∨ c.toNat = 127 then "\\x" ++ hex2 c.toNat
  else String.singleton c

/-- CPython repr of a string: single-quoted, switching to double quotes
when the string contains a single quote but no double quote, with the
escapes of pyReprEscape.  Exact for strings of characters up to 0x7F (for
higher code points CPython additionally consults Unicode printability;
the theorems rendering raw payloads confine them to ASCII). -/
def pyReprStr (s : String) : String :=
  let l := s.toList
  let quote : Char :=
    if l.contains (Char.ofNat 39) && ! l.contains (Char.ofNat 34) then Char.ofNat 34
    else Char.ofNat 39
  String.singleton quote ++ String.join (l.map (pyReprEscape quote)) ++ String.singleton quote

example : pyReprStr ("can" ++ sq ++ "t") = "\"can" ++ sq ++ "t\"" := by decide

example : pyReprStr ("a\"b" ++ sq ++ "c") = sq ++ "a\"b" ++ "\\" ++ sq ++ "c" ++ sq := by
  decide

example : pyReprStr "a\tb" = sq ++ "a\\tb" ++ sq := by decide

example : pyReprStr (String.mk [Char.ofNat 0, Char.ofNat 11]) = sq ++ "\\x00\\x0b" ++ sq := by
  decide

mutual

/-- Python repr/str of a value as the f-strings render dicts: None/True/
False keywords, plain integers, quoted strings per pyReprStr, bracketed
lists, braced dicts with ", " and ": " separators. -/
def pyRepr : Json → String
  | .null => "None"
  | .b true => "True"
  | .b false => "False"
  | .i n => toString n
  | .s str => pyReprStr str
  | .arr l => "[" ++ pyReprList l ++ "]"
  | .obj l => "\x7b" ++ pyReprObj l ++ "\x7d"

/-- Comma-separated repr of list elements. -/
def pyReprList : List Json → String
  | [] => ""
  | [x] => pyRepr x
  | x :: y :: rest => pyRepr x ++ ", " ++ pyReprList (y :: rest)

/-- Comma-separated repr of dict entries. -/
def pyReprObj : List (String × Json) → String
  | [] => ""
  | [(k, v)] => pyReprStr k ++ ": " ++ pyRepr v
  | (k, v) :: y :: rest => pyReprStr k ++ ": " ++ pyRepr v ++ ", " ++ pyReprObj (y :: rest)

end

mutual

/-- All strings (keys and values) of a JSON value lie in the ASCII range,
where pyReprStr coincides with CPython repr. -/
def asciiJsonB : Json → Bool
  | .null => true
  | .b _ => true
  | .i _ => true
  | .s str => str.toList.all (fun c => c.toNat ≤ 127)
  | .arr l => asciiListB l
  | .obj l => asciiObjB l

/-- ASCII check over a list of values. -/
def asciiListB : List Json → Bool
  | [] => true
  | x :: rest => asciiJsonB x && asciiListB rest

/-- ASCII check over dict entries. -/
def asciiObjB : List (String × Json) → Bool
  | [] => true
  | (k, v) :: rest =>
    k.toList.all (fun c => c.toNat ≤ 127) && asciiJsonB v && asciiObjB rest

end

/-- Python str(x) as the f-strings use it: strings pass through unquoted,
everything else reprs. -/
def pyStr (j : Json) : String :=
  match j with
  | .s str => str
  | _ => pyRepr j

example :
    pyStr (Json.obj [("result", Json.s "failed"), ("error_code", Json.i 131)])
      = "\x7b" ++ sq ++ "result" ++ sq ++ ": " ++ sq ++ "failed" ++ sq ++ ", " ++ sq
          ++ "error_code" ++ sq ++ ": 131" ++ "\x7d" := by
  decide

/-! The report formatters, balance valuation and the order-placement flow.
HTTP responses are supplied by explicit oracles; the uuid order id, the
1-second sleep and stdout printing have no bearing on the computed
messages.  datetime.datetime.fromtimestamp renders in the local timezone,
so it is abstracted as an explicit parameter applied to the raw epoch-ms
value. -/

/-- Json integer extraction: the / 1000 of ordered_at needs a number. -/
def jInt (j : Json) : Option Int :=
  match j with
  | .i n => some n
  | _ => none

/-- Json array extraction, for iteration. -/
def jArr (j : Json) : Option (List Json) :=
  match j with
  | .arr l => some l
  | _ => none

/-- Substring containment, for the message-content claims. -/
def strContains (hay needle : String) : Prop := ∃ p q, hay = p ++ (needle ++ q)

/-- Embedding of get_order_result_report: the fixed template block over
the fields of one order detail, with the conversions the f-string
performs — int() with commas for the average executed price, float() with
commas for traded amount and fee, str() for the rest, and the abstracted
local-time rendering of ordered_at. -/
def get_order_result_report_model (hold currency : String) (fmtTime : Int → String)
    (order : Json) : Option String :=
  (jGet order "order_id").bind fun oid =>
  (jGet order "ordered_at").bind fun oatJ =>
  (jInt oatJ).bind fun oat =>
  (jGet order "average_executed_price").bind fun aepJ =>
  (pyIntConv aepJ).bind fun aep =>
  (jGet order "executed_qty").bind fun qty =>
  (jGet order "traded_amount").bind fun taJ =>
  (pyFloat taJ).bind fun ta =>
  (jGet order "status").bind fun st =>
  (jGet order "fee").bind fun feeJ =>
  (pyFloat feeJ).map fun fee =>
    "**[주문 ID]**\n " ++ pyStr oid ++ "\n\n**[주문 시각]**\n" ++ fmtTime oat
      ++ "\n\n**[주문 가격]**\n" ++ intCommas aep ++ " " ++ hold
      ++ "\n\n**[체결 수량]**\n" ++ pyStr qty ++ " " ++ currency
      ++ "\n\n**[체결 금액]**\n" ++ formatDecCommas ta ++ " " ++ hold
      ++ "\n\n**[주문 상태]**\n" ++ pyStr st
      ++ "\n\n**[수수료]**\n" ++ formatDecCommas fee ++ " " ++ hold ++ "\n\n"

/-- One step of the reduce(format_balance, balances, "") fold: appends the
row block to the accumulated report, and records the ticker request the
row makes — get_current_price(curr["currency"]) — in the request log.
The valuation line multiplies float(available) by the freshly fetched
price and truncates with int(); the stored average_price appears only in
its own display line. -/
def format_balance_step (hold : String) (tickerOf : String → Json) :
    (String × List String) → Json → Option (String × List String) :=
  fun acc curr =>
  (jGet curr "currency").bind fun cJ =>
  (jGet curr "available").bind fun avJ =>
  (pyFloat avJ).bind fun av =>
  (jGet curr "average_price").bind fun apJ =>
  (pyFloat apJ).bind fun ap =>
  (extract_current_price (tickerOf (pyStr cJ))).bind fun priceJ =>
  (pyFloat priceJ).map fun price =>
    (acc.1 ++ "\n**[" ++ pyStr cJ ++ "]**\n"
      ++ "현재 보유량: " ++ formatDecCommas av ++ " " ++ pyStr cJ ++ "\n"
      ++ "매수 평균가: " ++ formatDecCommas ap ++ " " ++ hold ++ "\n"
      ++ "총 보유 가치: " ++ intCommas (truncDec (mulDec av price)) ++ " " ++ hold ++ "\n",
     acc.2 ++ [ticker_action hold (pyStr cJ)])

/-- Embedding of get_balance_info on the balance response: the header line
plus the folded row blocks, paired with the list of ticker request paths
the fold issues, in order. -/
def get_balance_info_model (hold : String) (tickerOf : String → Json) (balResp : Json) :
    Option (String × List String) :=
  (jGet balResp "balances").bind fun bJ =>
  (jArr bJ).bind fun rows =>
  (rows.foldlM (format_balance_step hold tickerOf) ("", [])).map fun res =>
    ("=== 자산 별 보유 현황 ===\n" ++ res.1, res.2)

/-- The exchange responses one run of place_buy_order consumes: a ticker
response per currency, the order submission response, the order detail
response and the balance response. -/
structure ExchangeWorld where
  tickerOf : String → Json
  buyResp : Json
  orderResp : Json
  balResp : Json

/-- The comparison buy_response["result"] == "success": Python equality of
a JSON value with a string literal never raises; only an equal string
compares true. -/
def isSuccessResult (j : Json) : Bool :=
  match j with
  | .s str => str == "success"
  | _ => false

/-- Embedding of place_buy_order: fetch and float() the current price,
submit the buy, then branch on the result field — the success path builds
the order report and balance report into one webhook message, the other
path sends the fixed failure message with the raw response rendered by
the f-string.  The returned list holds the webhook messages sent; none
models an uncaught exception. -/
def place_buy_order_model (hold currency : String) (fmtTime : Int → String)
    (w : ExchangeWorld) : Option (List String) :=
  (extract_current_price (w.tickerOf currency)).bind fun priceJ =>
  (pyFloat priceJ).bind fun _cp =>
  (jGet w.buyResp "result").bind fun res =>
  if isSuccessResult res then
    (jGet w.buyResp "order_id").bind fun _oid =>
    (jGet w.orderResp "order").bind fun order =>
    (get_order_result_report_model hold currency fmtTime order).bind fun report =>
    (get_balance_info_model hold w.tickerOf w.balResp).map fun bal =>
      ["**===== 주문이 접수되었습니다 =====**\n\n" ++ report ++ "\n" ++ bal.1]
  else
    some ["❌ 자동 매수 주문이 실패했습니다.\n사유: " ++ pyRepr w.buyResp]

/-- A minimal well-formed ticker response carrying one ask price. -/
def tickResp (p : String) : Json :=
  Json.obj [("tickers", Json.arr
    [Json.obj [("best_asks", Json.arr [Json.obj [("price", Json.s p)]])]])]

/-- An order-detail order object with the fields the report reads. -/
def mkOrder (oid : String) (oat aep : Int) (qty ta st fee : String) : Json :=
  Json.obj [("order_id", Json.s oid), ("ordered_at", Json.i oat),
    ("average_executed_price", Json.i aep), ("executed_qty", Json.s qty),
    ("traded_amount", Json.s ta), ("status", Json.s st), ("fee", Json.s fee)]

/-- One balance row as the exchange returns it (string-valued fields),
together with the parsed decimals its hypotheses assert. -/
structure BalRow where
  cur : String
  avail : String
  avg : String
  davail : PyDec
  davg : PyDec
  dprice : PyDec

/-- The JSON object of a balance row. -/
def mkRow (r : BalRow) : Json :=
  Json.obj [("currency", Json.s r.cur), ("available", Json.s r.avail),
    ("average_price", Json.s r.avg)]

/-- The report block one balance row contributes: the valuation line uses
the freshly fetched price, the stored average only its display line. -/
def rowBlock (hold : String) (r : BalRow) : String :=
  "\n**[" ++ r.cur ++ "]**\n"
    ++ "현재 보유량: " ++ formatDecCommas r.davail ++ " " ++ r.cur ++ "\n"
    ++ "매수 평균가: " ++ formatDecCommas r.davg ++ " " ++ hold ++ "\n"
    ++ "총 보유 가치: " ++ intCommas (truncDec (mulDec r.davail r.dprice)) ++ " " ++ hold ++ "\n"

/-- Concatenation of the blocks of a row list, in order. -/
def concatBlocks (hold : String) (rs : List BalRow) : String :=
  rs.foldr (fun r acc => rowBlock hold r ++ acc) ""

/-- The price value extract_current_price reads from the minimal ticker
response. -/
theorem extract_tickResp (p : String) :
    extract_current_price (tickResp p) = some (Json.s p) := rfl

/-- Characterization of the balance fold: on well-formed rows it appends
one block and one ticker request per row, in row order. -/
theorem balance_fold_characterization (hold : String) (priceOf : String → String)
    (rs : List BalRow)
    (h : ∀ r ∈ rs, parseDec r.avail = some r.davail ∧ parseDec r.avg = some r.davg
        ∧ parseDec (priceOf r.cur) = some r.dprice
        ∧ floatFaithful r.davail ∧ floatFaithful r.davg ∧ floatFaithful r.dprice
        ∧ prodExact r.davail r.dprice) :
    ∀ (acc1 : String) (acc2 : List String),
    (rs.map mkRow).foldlM (format_balance_step hold (fun c => tickResp (priceOf c))) (acc1, acc2)
      = some (acc1 ++ concatBlocks hold rs, acc2 ++ rs.map (fun r => ticker_action hold r.cur)) := by
  induction rs with
  | nil => intro acc1 acc2; simp [concatBlocks]
  | cons r rest ih =>
    intro acc1 acc2
    obtain ⟨h1, h2, h3, _, _, _, _⟩ := h r (List.mem_cons_self _ _)
    have hrest := fun x hx => h x (List.mem_cons_of_mem _ hx)
    have hstep : format_balance_step hold (fun c => tickResp (priceOf c)) (acc1, acc2) (mkRow r)
        = some (acc1 ++ rowBlock hold r, acc2 ++ [ticker_action hold r.cur]) := by
      simp [format_balance_step, mkRow, jGet, dictGet, pyStr, pyFloat, h1, h2, h3,
        extract_tickResp, rowBlock, String.append_assoc]
    simp only [List.map_cons, List.foldlM_cons, hstep, Option.bind_eq_bind, Option.some_bind]
    rw [ih hrest]
    have hblocks : concatBlocks hold (r :: rest) = rowBlock hold r ++ concatBlocks hold rest := rfl
    simp [hblocks, String.append_assoc]

/-- C10: on the balance report, every row issues one live ticker fetch for
its own currency — the request paths are exactly
/public/v2/ticker_new/hold/currency in row order, the hold-currency row
thus fetching the hold/hold pair — and each row's valuation line shows
int(available × freshly-fetched-price); the stored average price appears
only in its own display line (see rowBlock).  The rows are confined to
the regime where the exact-decimal model coincides with binary64
arithmetic: every parsed value is floatFaithful and the valuation product
is computed exactly (prodExact). -/
theorem C10_balance_valuation_live_price (hold : String) (priceOf : String → String)
    (rs : List BalRow)
    (h : ∀ r ∈ rs, parseDec r.avail = some r.davail ∧ parseDec r.avg = some r.davg
        ∧ parseDec (priceOf r.cur) = some r.dprice
        ∧ floatFaithful r.davail ∧ floatFaithful r.davg ∧ floatFaithful r.dprice
        ∧ prodExact r.davail r.dprice) :
    get_balance_info_model hold (fun c => tickResp (priceOf c))
        (Json.obj [("balances", Json.arr (rs.map mkRow))])
      = some ("=== 자산 별 보유 현황 ===\n" ++ concatBlocks hold rs,
              rs.map (fun r => ticker_action hold r.cur)) := by
  have h0 : get_balance_info_model hold (fun c => tickResp (priceOf c))
        (Json.obj [("balances", Json.arr (rs.map mkRow))])
      = ((rs.map mkRow).foldlM (format_balance_step hold (fun c => tickResp (priceOf c)))
          ("", [])).map
          (fun res => ("=== 자산 별 보유 현황 ===\n" ++ res.1, res.2)) := rfl
  rw [h0, balance_fold_characterization hold priceOf rs h "" []]
  simp

/-- Witness for C10: a single KRW row under hold currency KRW issues the
ticker fetch for the pair KRW/KRW and values the row by the live price. -/
theorem C10_balance_valuation_live_price_witness :
    get_balance_info_model "KRW" (fun c => tickResp ((fun _ => "1") c))
        (Json.obj [("balances", Json.arr
          ([({cur := "KRW", avail := "5000.5", avg := "1.0",
              davail := ⟨50005, 1⟩, davg := ⟨10, 1⟩, dprice := ⟨1, 0⟩} : BalRow)].map mkRow))])
      = some ("=== 자산 별 보유 현황 ===\n"
            ++ concatBlocks "KRW"
                [({cur := "KRW", avail := "5000.5", avg := "1.0",
                   davail := ⟨50005, 1⟩, davg := ⟨10, 1⟩, dprice := ⟨1, 0⟩} : BalRow)],
          ["/public/v2/ticker_new/KRW/KRW"]) := by
  have hmain := C10_balance_valuation_live_price "KRW" (fun _ => "1")
    [({cur := "KRW", avail := "5000.5", avg := "1.0",
       davail := ⟨50005, 1⟩, davg := ⟨10, 1⟩, dprice := ⟨1, 0⟩} : BalRow)]
    (by
      intro r hr
      rw [List.mem_singleton] at hr
      subst hr
      decide)
  simpa [ticker_action] using hmain

/-- The report text the template produces on a well-formed order detail. -/
def order_report_text (hold currency oid tstr : String) (aep : Int)
    (qty : String) (dta : PyDec) (st : String) (dfee : PyDec) : String :=
  "**[주문 ID]**\n " ++ oid ++ "\n\n**[주문 시각]**\n" ++ tstr
    ++ "\n\n**[주문 가격]**\n" ++ intCommas aep ++ " " ++ hold
    ++ "\n\n**[체결 수량]**\n" ++ qty ++ " " ++ currency
    ++ "\n\n**[체결 금액]**\n" ++ formatDecCommas dta ++ " " ++ hold
    ++ "\n\n**[주문 상태]**\n" ++ st
    ++ "\n\n**[수수료]**\n" ++ formatDecCommas dfee ++ " " ++ hold ++ "\n\n"

/-- The full success webhook message over an empty balance list. -/
def success_msg (hold currency oid tstr : String) (aep : Int) (qty : String)
    (dta : PyDec) (st : String) (dfee : PyDec) : String :=
  "**===== 주문이 접수되었습니다 =====**\n\n"
    ++ order_report_text hold currency oid tstr aep qty dta st dfee
    ++ "\n" ++ "=== 자산 별 보유 현황 ===\n"

/-- The report formatter on a well-formed order object. -/
theorem report_on_mkOrder (hold currency : String) (fmtTime : Int → String)
    (oid : String) (oat aep : Int) (qty ta st fee : String) (dta dfee : PyDec)
    (hta : parseDec ta = some dta) (hfee : parseDec fee = some dfee) :
    get_order_result_report_model hold currency fmtTime (mkOrder oid oat aep qty ta st fee)
      = some (order_report_text hold currency oid (fmtTime oat) aep qty dta st dfee) := by
  simp [get_order_result_report_model, mkOrder, jGet, dictGet, jInt, pyIntConv, pyFloat,
    pyStr, hta, hfee, order_report_text, String.append_assoc]

/-- The balance report over an empty balance list: header only, no ticker
requests. -/
theorem balance_info_empty (hold : String) (tickerOf : String → Json) :
    get_balance_info_model hold tickerOf (Json.obj [("balances", Json.arr [])])
      = some ("=== 자산 별 보유 현황 ===\n", []) := by
  simp [get_balance_info_model, jGet, dictGet, jArr]

/-- C6: on the success branch (result field equal to "success") the one
webhook message sent is the header plus the order report plus the balance
report, and it contains the order id, both currency codes, and the
formatted quantities of the order detail; on any other result value no
exception is raised and the one message sent embeds the raw response,
rendered by the f-string.  The formatted decimals are confined to the
floatFaithful regime where the exact-decimal model coincides with CPython
float formatting, and the rejection payload to ASCII strings, where
pyReprStr coincides with CPython repr. -/
theorem C6_order_result_paths (hold currency : String) (fmtTime : Int → String)
    (oid : String) (oat aep : Int) (qty ta st fee priceS : String)
    (dta dfee dpr : PyDec)
    (hta : parseDec ta = some dta) (hfee : parseDec fee = some dfee)
    (hpr : parseDec priceS = some dpr)
    (_hfta : floatFaithful dta) (_hffee : floatFaithful dfee)
    (failResp rv : Json)
    (hrv : jGet failResp "result" = some rv) (hnv : isSuccessResult rv = false)
    (_hascii : asciiJsonB failResp = true) :
    place_buy_order_model hold currency fmtTime
        { tickerOf := fun _ => tickResp priceS,
          buyResp := Json.obj [("result", Json.s "success"), ("order_id", Json.s oid)],
          orderResp := Json.obj [("order", mkOrder oid oat aep qty ta st fee)],
          balResp := Json.obj [("balances", Json.arr [])] }
      = some [success_msg hold currency oid (fmtTime oat) aep qty dta st dfee]
    ∧ strContains (success_msg hold currency oid (fmtTime oat) aep qty dta st dfee) oid
    ∧ strContains (success_msg hold currency oid (fmtTime oat) aep qty dta st dfee) hold
    ∧ strContains (success_msg hold currency oid (fmtTime oat) aep qty dta st dfee) currency
    ∧ strContains (success_msg hold currency oid (fmtTime oat) aep qty dta st dfee) qty
    ∧ strContains (success_msg hold currency oid (fmtTime oat) aep qty dta st dfee)
        (formatDecCommas dta)
    ∧ place_buy_order_model hold currency fmtTime
        { tickerOf := fun _ => tickResp priceS,
          buyResp := failResp,
          orderResp := Json.obj [("order", mkOrder oid oat aep qty ta st fee)],
          balResp := Json.obj [("balances", Json.arr [])] }
      = some ["❌ 자동 매수 주문이 실패했습니다.\n사유: " ++ pyRepr failResp] := by
  refine ⟨?_, ?_, ?_, ?_, ?_, ?_, ?_⟩
  · simp only [place_buy_order_model, extract_tickResp, Option.some_bind, pyFloat, hpr]
    simp [jGet, dictGet, isSuccessResult,
      report_on_mkOrder hold currency fmtTime oid oat aep qty ta st fee dta dfee hta hfee,
      balance_info_empty, success_msg, String.append_assoc]
  · refine ⟨"**===== 주문이 접수되었습니다 =====**\n\n" ++ "**[주문 ID]**\n ",
      "\n\n**[주문 시각]**\n" ++ fmtTime oat ++ "\n\n**[주문 가격]**\n" ++ intCommas aep ++ " "
        ++ hold ++ "\n\n**[체결 수량]**\n" ++ qty ++ " " ++ currency ++ "\n\n**[체결 금액]**\n"
        ++ formatDecCommas dta ++ " " ++ hold ++ "\n\n**[주문 상태]**\n" ++ st
        ++ "\n\n**[수수료]**\n" ++ formatDecCommas dfee ++ " " ++ hold ++ "\n\n" ++ "\n"
        ++ "=== 자산 별 보유 현황 ===\n", ?_⟩
    simp only [success_msg, order_report_text, String.append_assoc]
  · refine ⟨"**===== 주문이 접수되었습니다 =====**\n\n" ++ "**[주문 ID]**\n " ++ oid
        ++ "\n\n**[주문 시각]**\n" ++ fmtTime oat ++ "\n\n**[주문 가격]**\n" ++ intCommas aep
        ++ " ",
      "\n\n**[체결 수량]**\n" ++ qty ++ " " ++ currency ++ "\n\n**[체결 금액]**\n"
        ++ formatDecCommas dta ++ " " ++ hold ++ "\n\n**[주문 상태]**\n" ++ st
        ++ "\n\n**[수수료]**\n" ++ formatDecCommas dfee ++ " " ++ hold ++ "\n\n" ++ "\n"
        ++ "=== 자산 별 보유 현황 ===\n", ?_⟩
    simp only [success_msg, order_report_text, String.append_assoc]
  · refine ⟨"**===== 주문이 접수되었습니다 =====**\n\n" ++ "**[주문 ID]**\n " ++ oid
        ++ "\n\n**[주문 시각]**\n" ++ fmtTime oat ++ "\n\n**[주문 가격]**\n" ++ intCommas aep
        ++ " " ++ hold ++ "\n\n**[체결 수량]**\n" ++ qty ++ " ",
      "\n\n**[체결 금액]**\n" ++ formatDecCommas dta ++ " " ++ hold ++ "\n\n**[주문 상태]**\n"
        ++ st ++ "\n\n**[수수료]**\n" ++ formatDecCommas dfee ++ " " ++ hold ++ "\n\n" ++ "\n"
        ++ "=== 자산 별 보유 현황 ===\n", ?_⟩
    simp only [success_msg, order_report_text, String.append_assoc]
  · refine ⟨"**===== 주문이 접수되었습니다 =====**\n\n" ++ "**[주문 ID]**\n " ++ oid
        ++ "\n\n**[주문 시각]**\n" ++ fmtTime oat ++ "\n\n**[주문 가격]**\n" ++ intCommas aep
        ++ " " ++ hold ++ "\n\n**[체결 수량]**\n",
      " " ++ currency ++ "\n\n**[체결 금액]**\n" ++ formatDecCommas dta ++ " " ++ hold
        ++ "\n\n**[주문 상태]**\n" ++ st ++ "\n\n**[수수료]**\n" ++ formatDecCommas dfee ++ " "
        ++ hold ++ "\n\n" ++ "\n" ++ "=== 자산 별 보유 현황 ===\n", ?_⟩
    simp only [success_msg, order_report_text, String.append_assoc]
  · refine ⟨"**===== 주문이 접수되었습니다 =====**\n\n" ++ "**[주문 ID]**\n " ++ oid
        ++ "\n\n**[주문 시각]**\n" ++ fmtTime oat ++ "\n\n**[주문 가격]**\n" ++ intCommas aep
        ++ " " ++ hold ++ "\n\n**[체결 수량]**\n" ++ qty ++ " " ++ currency
        ++ "\n\n**[체결 금액]**\n",
      " " ++ hold ++ "\n\n**[주문 상태]**\n" ++ st ++ "\n\n**[수수료]**\n"
        ++ formatDecCommas dfee ++ " " ++ hold ++ "\n\n" ++ "\n"
        ++ "=== 자산 별 보유 현황 ===\n", ?_⟩
    simp only [success_msg, order_report_text, String.append_assoc]
  · simp only [place_buy_order_model, extract_tickResp, Option.some_bind, pyFloat, hpr, hrv,
      hnv]
    simp

/-- Witness for C6 at a concrete order detail and a concrete rejection. -/
theorem C6_order_result_paths_witness :
    place_buy_order_model "KRW" "BTC" (fun _ => "2024-01-02")
        { tickerOf := fun _ => tickResp "100",
          buyResp := Json.obj [("result", Json.s "success"), ("order_id", Json.s "ord-123")],
          orderResp := Json.obj [("order",
            mkOrder "ord-123" 1700000000000 140000000 "0.0001" "5000.5" "FILLED" "2.5")],
          balResp := Json.obj [("balances", Json.arr [])] }
      = some [success_msg "KRW" "BTC" "ord-123" "2024-01-02"
          140000000 "0.0001" ⟨50005, 1⟩ "FILLED" ⟨25, 1⟩] :=
  (C6_order_result_paths "KRW" "BTC" (fun _ => "2024-01-02") "ord-123" 1700000000000 140000000
    "0.0001" "5000.5" "FILLED" "2.5" "100" ⟨50005, 1⟩ ⟨25, 1⟩ ⟨100, 0⟩
    (by decide) (by decide) (by decide) (by decide) (by decide)
    (Json.obj [("result", Json.s "failed"), ("error_code", Json.i 131)]) (Json.s "failed")
    rfl (by decide) (by decide)).1

end Coinone
